import Mathlib

/-!
Verification of the gltf-viewer core against its specification.

The development shallowly embeds the three source files of the repository:
`src/http_source.rs`, `src/render/node.rs` and `src/render/primitive.rs`.
Floating-point scalars are modelled as rationals, 4x4 float matrices as
`Matrix (Fin 4) (Fin 4) ℚ`, reference-counted sharing (`Rc`) as values
tagged with the id of their allocation, and panics as an explicit
`panicked` outcome.  GPU and HTTP side effects are recorded as events or
supplied as inputs; they are external collaborators of the code under
verification.
-/

namespace GltfViewer

/-! ## Math primitives (the cgmath collaborators used by the code) -/

/-- Model of `cgmath::Vector2<f32>` with rational components. -/
structure Vector2 where
  x : ℚ
  y : ℚ
deriving DecidableEq, Repr

/-- Model of `cgmath::Vector3<f32>` with rational components. -/
structure Vector3 where
  x : ℚ
  y : ℚ
  z : ℚ
deriving DecidableEq, Repr

def Vector2.zero : Vector2 := ⟨0, 0⟩

def Vector3.zero : Vector3 := ⟨0, 0, 0⟩

/-- Model of `Vector3::from([x, y, z])`. -/
def Vector3.from3 (p : ℚ × ℚ × ℚ) : Vector3 := ⟨p.1, p.2.1, p.2.2⟩

/-- Model of `cgmath::Quaternion<f32>`: a scalar part `s` and a vector part.
`Quaternion::new(w, xi, yj, zk)` stores `w` in `s`. -/
structure Quaternion where
  s : ℚ
  x : ℚ
  y : ℚ
  z : ℚ
deriving DecidableEq, Repr

/-- Model of `Quaternion::new(w, xi, yj, zk)`: the first argument is the
scalar (w) component. -/
def Quaternion.new (w xi yj zk : ℚ) : Quaternion := ⟨w, xi, yj, zk⟩

/-- Model of `cgmath::Matrix4<f32>`: row `i`, column `j` of rationals. -/
abbrev Matrix4 := Matrix (Fin 4) (Fin 4) ℚ

/-- Model of `Matrix4::new`: cgmath takes the sixteen entries in
column-major order, the first four arguments being column 0. -/
def Matrix4.new (c0r0 c0r1 c0r2 c0r3 c1r0 c1r1 c1r2 c1r3
    c2r0 c2r1 c2r2 c2r3 c3r0 c3r1 c3r2 c3r3 : ℚ) : Matrix4 :=
  !![c0r0, c1r0, c2r0, c3r0;
     c0r1, c1r1, c2r1, c3r1;
     c0r2, c1r2, c2r2, c3r2;
     c0r3, c1r3, c2r3, c3r3]

/-- Model of `SquareMatrix::is_identity`. -/
def Matrix4.is_identity (m : Matrix4) : Bool := decide (m = 1)

/-- Model of `Matrix4::from_translation(t)`: identity with the translation
in the last column. -/
def Matrix4.from_translation (t : Vector3) : Matrix4 :=
  !![1, 0, 0, t.x;
     0, 1, 0, t.y;
     0, 0, 1, t.z;
     0, 0, 0, 1]

/-- Model of `Matrix4::from_nonuniform_scale(sx, sy, sz)`. -/
def Matrix4.from_nonuniform_scale (sx sy sz : ℚ) : Matrix4 :=
  !![sx, 0, 0, 0;
     0, sy, 0, 0;
     0, 0, sz, 0;
     0, 0, 0, 1]

/-- Model of `Matrix4::from(q : Quaternion)`: the cgmath conversion of a
quaternion to a homogeneous rotation matrix. -/
def Matrix4.fromQuaternion (q : Quaternion) : Matrix4 :=
  let x2 := q.x + q.x
  let y2 := q.y + q.y
  let z2 := q.z + q.z
  let xx2 := x2 * q.x
  let xy2 := x2 * q.y
  let xz2 := x2 * q.z
  let yy2 := y2 * q.y
  let yz2 := y2 * q.z
  let zz2 := z2 * q.z
  let sy2 := y2 * q.s
  let sz2 := z2 * q.s
  let sx2 := x2 * q.s
  Matrix4.new
    (1 - yy2 - zz2) (xy2 + sz2) (xz2 - sy2) 0
    (xy2 - sz2) (1 - xx2 - zz2) (yz2 + sx2) 0
    (xz2 + sy2) (yz2 - sx2) (1 - xx2 - yy2) 0
    0 0 0 1

/-! ## HttpSource (src/http_source.rs) -/

/-- Model of a reqwest URL at the granularity the code manipulates it:
a scheme, a host, and the sequence of path segments. -/
structure Url where
  scheme : String
  host : String
  path : List String
deriving DecidableEq, Repr

def urlSchemeSep : String := "://"

def urlSlash : String := "/"

/-- Model of `PathSegmentsMut::pop`: remove the last path segment. -/
def Url.popSegment (u : Url) : Url := { u with path := u.path.dropLast }

/-- Model of `PathSegmentsMut::push`: append a path segment. -/
def Url.pushSegment (u : Url) (s : String) : Url := { u with path := u.path ++ [s] }

/-- Model of `Url::to_string` for the URLs in scope here. -/
def Url.render (u : Url) : String :=
  u.scheme ++ urlSchemeSep ++ u.host ++ urlSlash ++ String.intercalate urlSlash u.path

/-- Embedding of `HttpSource::source_external_data` (src/http_source.rs:67-73)
at the URL level: clone the base URL, then `.pop().push(uri)` on its path
segments.  Method chaining applies `pop` first, then `push`. -/
def HttpSource.source_external_data (base : Url) (uri : String) : Url :=
  Url.pushSegment (Url.popSegment base) uri

/-- Input to one fetch: what the HTTP transport did for the requested URL.
`transportOk` is whether `reqwest::get` returned `Ok`; `statusSuccess` is
`resp.status().is_success()`. -/
structure HttpResponse where
  transportOk : Bool
  statusSuccess : Bool
  statusText : String
  body : List Nat
deriving DecidableEq, Repr

/-- Observable result of `HttpSource::fetch_data`: a returned byte buffer,
a returned typed `Error::HttpError`, or a thread panic. -/
inductive FetchOutcome where
  | ok (data : List Nat)
  | httpError (msg : String)
  | panicked (msg : String)
deriving DecidableEq, Repr

/-- True exactly on the typed-error outcome `Err(Error::HttpError(..))`. -/
def FetchOutcome.isTypedError : FetchOutcome → Bool
  | .httpError _ => true
  | _ => false

/-- True exactly on the panic outcome. -/
def FetchOutcome.isPanic : FetchOutcome → Bool
  | .panicked _ => true
  | _ => false

def unwrapErrMsg : String := "called unwrap on an Err value"

def requestFailedPre : String := "request failed: "

/-- Embedding of the closure spawned by `HttpSource::fetch_data`
(src/http_source.rs:44-58), with the transport's behaviour for the URL
supplied as input: `reqwest::get(&url).unwrap()` panics on a transport
error, the assertion on `resp.status().is_success()` panics on a
non-success status, and otherwise the body is returned. -/
def HttpSource.fetch_data (resp : HttpResponse) : FetchOutcome :=
  if !resp.transportOk then
    FetchOutcome.panicked unwrapErrMsg
  else if !resp.statusSuccess then
    FetchOutcome.panicked (requestFailedPre ++ resp.statusText)
  else
    FetchOutcome.ok resp.body

/-! Concrete inputs for the HttpSource claims. -/

def exHost : String := "host"

def exHttps : String := "https"

def exDir : String := "dir"

def exSceneGltf : String := "scene.gltf"

def exBufferBin : String := "buffer.bin"

def exBaseUrl : Url := { scheme := exHttps, host := exHost, path := [exDir, exSceneGltf] }

def exResolvedStr : String := "https://host/dir/buffer.bin"

def exNotFound : String := "404 Not Found"

def exResp404 : HttpResponse :=
  { transportOk := true, statusSuccess := false, statusText := exNotFound, body := [] }

def exRespTransportErr : HttpResponse :=
  { transportOk := false, statusSuccess := false, statusText := exNotFound, body := [] }

/-! ## Primitive (src/render/primitive.rs) -/

/-- Model of the `u32` index values uploaded to the GPU. -/
abbrev U32 := Fin 4294967296

/-- Model of the `Vertex` record (src/render/primitive.rs:13-21). -/
structure Vertex where
  position : Vector3
  normal : Vector3
  tex_coords : Vector2
  tangent : Vector3
  bitangent : Vector3
deriving DecidableEq, Repr

/-- Model of `Vertex::default` (src/render/primitive.rs:23-33). -/
def Vertex.default : Vertex :=
  { position := Vector3.zero, normal := Vector3.zero, tex_coords := Vector2.zero,
    tangent := Vector3.zero, bitangent := Vector3.zero }

/-- Model of the `Texture` record (src/render/primitive.rs:35-40). -/
structure Texture where
  id : Nat
  type_ : String
  path : String
deriving DecidableEq, Repr

/-- Model of the `Primitive` record (src/render/primitive.rs:42-54).  The
GPU handles are carried along; the values the GL driver writes into them
are external and not modelled. -/
structure Primitive where
  vertices : List Vertex
  indices : List U32
  textures : List Texture
  vao : Nat
  vbo : Nat
  ebo : Nat
deriving DecidableEq, Repr

/-- Result of running a fallible piece of code: its value, or the message
of the panic that aborted it. -/
inductive Outcome (α : Type) where
  | ok (val : α)
  | panicked (msg : String)
deriving DecidableEq, Repr

def Outcome.isOk {α : Type} : Outcome α → Bool
  | .ok _ => true
  | .panicked _ => false

def outOfBoundsMsg : String := "index out of bounds"

def unwrapNoneMsg : String := "called unwrap on a None value"

def unknownTextureMsg : String := "unknown texture type"

/-- Embedding of `Primitive::setup_primitive` (src/render/primitive.rs:142-182)
at the granularity relevant here: `&self.vertices[0]` and `&self.indices[0]`
panic when the corresponding vector is empty; the GL buffer and attribute
calls are external side effects with no observable result in the record. -/
def Primitive.setup_primitive (p : Primitive) : Outcome Primitive :=
  if p.vertices.isEmpty then Outcome.panicked outOfBoundsMsg
  else if p.indices.isEmpty then Outcome.panicked outOfBoundsMsg
  else Outcome.ok p

/-- The `Primitive` record as first assembled by `Primitive::new`, with the
GPU handles still zeroed. -/
def Primitive.assemble (vertices : List Vertex) (indices : List U32)
    (textures : List Texture) : Primitive :=
  { vertices := vertices, indices := indices, textures := textures,
    vao := 0, vbo := 0, ebo := 0 }

/-- Embedding of `Primitive::new` (src/render/primitive.rs:57-66): build the
record with zeroed GPU handles, then run `setup_primitive`. -/
def Primitive.new (vertices : List Vertex) (indices : List U32)
    (textures : List Texture) : Outcome Primitive :=
  Primitive.setup_primitive (Primitive.assemble vertices indices textures)

/-- Model of `gltf::mesh::Indices` (an index stream of one of the three
source widths). -/
inductive Indices where
  | u8 (elems : List (Fin 256))
  | u16 (elems : List (Fin 65536))
  | u32 (elems : List U32)
deriving DecidableEq, Repr

/-- The numeric values held by an index stream, before widening. -/
def Indices.vals : Indices → List Nat
  | .u8 l => l.map Fin.val
  | .u16 l => l.map Fin.val
  | .u32 l => l.map Fin.val

/-- Embedding of the index-widening match of `Primitive::from_gltf`
(src/render/primitive.rs:82-86): every arm maps `i as u32` over the stream;
the cast from a narrower width is a zero extension. -/
def Indices.widen : Indices → List U32
  | .u8 l => l.map (fun i => Fin.castLE (by decide) i)
  | .u16 l => l.map (fun i => Fin.castLE (by decide) i)
  | .u32 l => l.map (fun i => i)

/-- Model of the parsed attribute streams a `gltf::mesh::Primitive` offers:
`position()`, `normal()` and `indices()` all return options. -/
structure GPrimitive where
  positions : Option (List (ℚ × ℚ × ℚ))
  normals : Option (List (ℚ × ℚ × ℚ))
  indices : Option Indices

/-- Embedding of the vertex construction of `Primitive::from_gltf`
(src/render/primitive.rs:74-80): pair positions with normals by `zip`
(stopping at the shorter stream); the remaining vertex fields stay at
their defaults. -/
def buildVertices (positions normals : List (ℚ × ℚ × ℚ)) : List Vertex :=
  (positions.zip normals).map (fun pn =>
    { Vertex.default with
        position := Vector3.from3 pn.1, normal := Vector3.from3 pn.2 })

/-- Embedding of `Primitive::from_gltf` (src/render/primitive.rs:68-94):
unwrap the three streams (panicking when absent), pair positions with
normals by `zip` (stopping at the shorter stream) with the remaining
vertex fields defaulted, widen the indices, and call `Primitive::new`
with an empty texture list. -/
def Primitive.from_gltf (g : GPrimitive) : Outcome Primitive :=
  match g.positions with
  | none => Outcome.panicked unwrapNoneMsg
  | some positions =>
    match g.normals with
    | none => Outcome.panicked unwrapNoneMsg
    | some normals =>
      match g.indices with
      | none => Outcome.panicked unwrapNoneMsg
      | some gindices =>
        Primitive.new (buildVertices positions normals) gindices.widen []

/-- GL calls issued by `Primitive::draw`, recorded as events. -/
inductive GlEvent where
  | activeTexture (unit : Nat)
  | uniform1i (sampler : String) (unit : Nat)
  | bindTexture (id : Nat)
  | bindVertexArray (id : Nat)
  | drawElements (count : Nat)
deriving DecidableEq, Repr

def kindDiffuse : String := "texture_diffuse"

def kindSpecular : String := "texture_specular"

def kindNormal : String := "texture_normal"

def kindHeight : String := "texture_height"

/-- The four texture kind strings the draw match recognises. -/
def knownTextureKinds : List String := [kindDiffuse, kindSpecular, kindNormal, kindHeight]

/-- Embedding of the texture-binding loop of `Primitive::draw`
(src/render/primitive.rs:103-131).  `i` is the loop index (the texture
unit); the other four arguments are the running per-kind counters.  A
texture whose kind string is not one of the four recognised ones panics. -/
def bindTexturesLoop : List Texture → Nat → Nat → Nat → Nat → Nat → Outcome (List GlEvent)
  | [], _, _, _, _, _ => Outcome.ok []
  | t :: rest, i, diffuse_nr, specular_nr, normal_nr, height_nr =>
    let step : Outcome (Nat × Nat × Nat × Nat × Nat) :=
      if t.type_ = kindDiffuse then
        Outcome.ok (diffuse_nr + 1, diffuse_nr + 1, specular_nr, normal_nr, height_nr)
      else if t.type_ = kindSpecular then
        Outcome.ok (specular_nr + 1, diffuse_nr, specular_nr + 1, normal_nr, height_nr)
      else if t.type_ = kindNormal then
        Outcome.ok (normal_nr + 1, diffuse_nr, specular_nr, normal_nr + 1, height_nr)
      else if t.type_ = kindHeight then
        Outcome.ok (height_nr + 1, diffuse_nr, specular_nr, normal_nr, height_nr + 1)
      else Outcome.panicked unknownTextureMsg
    match step with
    | Outcome.panicked msg => Outcome.panicked msg
    | Outcome.ok (number, d, s, n, h) =>
      match bindTexturesLoop rest (i + 1) d s n h with
      | Outcome.panicked msg => Outcome.panicked msg
      | Outcome.ok evts =>
        Outcome.ok (GlEvent.activeTexture i
          :: GlEvent.uniform1i (t.type_ ++ toString number) i
          :: GlEvent.bindTexture t.id
          :: evts)

/-- Embedding of `Primitive::draw` (src/render/primitive.rs:97-140): bind
every texture in order, then bind the vertex array, issue the indexed
draw call, and restore default state. -/
def Primitive.draw (p : Primitive) : Outcome (List GlEvent) :=
  match bindTexturesLoop p.textures 0 0 0 0 0 with
  | Outcome.panicked msg => Outcome.panicked msg
  | Outcome.ok evts =>
    Outcome.ok (evts ++ [GlEvent.bindVertexArray p.vao,
      GlEvent.drawElements p.indices.length,
      GlEvent.bindVertexArray 0,
      GlEvent.activeTexture 0])

/-! Concrete inputs for the primitive claims. -/

def exWeirdKind : String := "texture_weird"

def exPathStr : String := "p"

def exWeirdTexture : Texture := { id := 7, type_ := exWeirdKind, path := exPathStr }

def exWeirdPrim : Primitive :=
  { vertices := [Vertex.default], indices := [0], textures := [exWeirdTexture],
    vao := 0, vbo := 0, ebo := 0 }

/-! Concrete index streams and attribute streams. -/

def ex012u8 : List (Fin 256) := [0, 1, 2]

def ex012u16 : List (Fin 65536) := [0, 1, 2]

def ex012u32 : List U32 := [0, 1, 2]

def exPos3 : List (ℚ × ℚ × ℚ) := [(1, 0, 0), (0, 1, 0), (0, 0, 1)]

def exNor3 : List (ℚ × ℚ × ℚ) := [(0, 0, 1), (0, 0, 1), (0, 0, 1)]

/-- Input exhibiting mismatched stream lengths with an empty zip: one
position, no normals. -/
def exMismatchG : GPrimitive :=
  { positions := some [(1, 2, 3)], normals := some [], indices := some (Indices.u32 [0]) }

/-! Concrete streams for the C10 witness: two positions, one normal. -/

def exPs2 : List (ℚ × ℚ × ℚ) := [(1, 2, 3), (4, 5, 6)]

def exNs1 : List (ℚ × ℚ × ℚ) := [(7, 8, 9)]

/-! ## Scene and Node (src/render/node.rs, with the Mesh and Scene records
of src/render/mesh.rs and src/render/scene.rs modelled from the spec) -/

/-- Model of the `gltf::mesh::Mesh` handle a document node references: only
its `index()` matters to the code in scope. -/
structure GMesh where
  index : Nat
deriving DecidableEq, Repr

/-- Model of a parsed `gltf::scene::Node`: the document's sixteen
column-major matrix values, its `[x, y, z, w]` rotation values, the TRS
vectors, an optional mesh reference, children, and an optional name. -/
inductive GNode where
  | mk (matrix : Fin 16 → ℚ) (rotation : Fin 4 → ℚ) (scale : Vector3)
       (translation : Vector3) (mesh : Option GMesh) (children : List GNode)
       (name : Option String)

def GNode.matrix : GNode → (Fin 16 → ℚ)
  | .mk m _ _ _ _ _ _ => m

def GNode.rotation : GNode → (Fin 4 → ℚ)
  | .mk _ r _ _ _ _ _ => r

def GNode.scale : GNode → Vector3
  | .mk _ _ s _ _ _ _ => s

def GNode.translation : GNode → Vector3
  | .mk _ _ _ t _ _ _ => t

def GNode.gmesh : GNode → Option GMesh
  | .mk _ _ _ _ m _ _ => m

def GNode.children : GNode → List GNode
  | .mk _ _ _ _ _ c _ => c

def GNode.gname : GNode → Option String
  | .mk _ _ _ _ _ _ n => n

/-- Modelled from the spec: the `Mesh` record of src/render/mesh.rs is not
among the sources; per spec section 3 a Mesh "is identified implicitly by
the source document's mesh index used as the dedup key" and is immutable
after construction.  `allocId` models the identity of the `Rc` allocation
holding it, so equality of `Mesh` values is reference identity. -/
structure Mesh where
  index : Nat
  allocId : Nat
deriving DecidableEq, Repr

/-- Modelled from the spec: `Mesh::from_gltf` of src/render/mesh.rs is not
among the sources; it constructs the Mesh for a document mesh, keyed by
that mesh's document index.  The fresh `Rc::new` allocation id is passed
in by the caller. -/
def Mesh.from_gltf (g : GMesh) (alloc : Nat) : Mesh :=
  { index := g.index, allocId := alloc }

/-- Model of the built `Node` record (src/render/node.rs:11-24). -/
inductive Node where
  | mk (children : List Node) (matrix : Matrix4) (mesh : Option Mesh)
       (rotation : Quaternion) (scale : Vector3) (translation : Vector3)
       (name : Option String) (final_transform : Matrix4)

def Node.children : Node → List Node
  | .mk c _ _ _ _ _ _ _ => c

def Node.matrix : Node → Matrix4
  | .mk _ m _ _ _ _ _ _ => m

def Node.mesh : Node → Option Mesh
  | .mk _ _ m _ _ _ _ _ => m

def Node.rotation : Node → Quaternion
  | .mk _ _ _ r _ _ _ _ => r

def Node.scale : Node → Vector3
  | .mk _ _ _ _ s _ _ _ => s

def Node.translation : Node → Vector3
  | .mk _ _ _ _ _ t _ _ => t

/-- Modelled from the spec: the `Scene` record of src/render/scene.rs is
not among the sources; per spec section 3 it owns `meshes` (the dedup
registry, "an ordered sequence of shared Mesh") and `nodes` (the roots).
`nextAlloc` is the id the next `Rc::new` allocation will get. -/
structure Scene where
  meshes : List Mesh
  nodes : List Node
  nextAlloc : Nat

def emptyScene : Scene := { meshes := [], nodes := [], nextAlloc := 0 }

/-- Embedding of the matrix transcription of `Node::from_gltf`
(src/render/node.rs:28-34): the sixteen column-major document values are
passed to `Matrix4::new`, the fourth argument being written `m[2]` in the
source (where a faithful transcription would pass `m[3]`). -/
def nodeMatrixOf (m : Fin 16 → ℚ) : Matrix4 :=
  Matrix4.new (m 0) (m 1) (m 2) (m 2)
    (m 4) (m 5) (m 6) (m 7)
    (m 8) (m 9) (m 10) (m 11)
    (m 12) (m 13) (m 14) (m 15)

/-- Embedding of the mesh-resolution block of `Node::from_gltf`
(src/render/node.rs:37-47): when the document node references a mesh,
look the registry up by document mesh index and clone the shared
reference on a hit; otherwise build the mesh, wrap it in a fresh `Rc`,
hand it to the node and push it onto the registry. -/
def resolveMesh (gmesh : Option GMesh) (s : Scene) : Option Mesh × Scene :=
  match gmesh with
  | none => (none, s)
  | some gm =>
    match s.meshes.find? (fun m => m.index == gm.index) with
    | some m => (some m, s)
    | none =>
      let m := Mesh.from_gltf gm s.nextAlloc
      (some m, { s with meshes := s.meshes ++ [m], nextAlloc := s.nextAlloc + 1 })

mutual

/-- Embedding of `Node::from_gltf` (src/render/node.rs:27-63): transcribe
the matrix, reorder the quaternion components from the document's
`[x, y, z, w]` to the engine's `[w, x, y, z]`, resolve the mesh against
the scene's dedup registry, then recurse into the children threading the
same scene, and assemble the node (its `final_transform` starts at the
identity). -/
def Node.from_gltf : GNode → Scene → Node × Scene
  | .mk gmatrix grot gscale gtrans gmesh gchildren gname, scene =>
    let rm := resolveMesh gmesh scene
    let cl := Node.from_gltf_list gchildren rm.2
    (Node.mk cl.1 (nodeMatrixOf gmatrix) rm.1
      (Quaternion.new (grot 3) (grot 0) (grot 1) (grot 2))
      gscale gtrans gname 1, cl.2)

/-- The recursion of `Node::from_gltf` over a child list, threading the
scene left to right in document order. -/
def Node.from_gltf_list : List GNode → Scene → List Node × Scene
  | [], s => ([], s)
  | g :: gs, s =>
    let n := Node.from_gltf g s
    let ns := Node.from_gltf_list gs n.2
    (n.1 :: ns.1, ns.2)

end

/-- Modelled from the spec: `Scene::build` of src/render/scene.rs is not
among the sources; per spec section 4.2 it "walks every root node in the
document, recursively constructing a Node tree" with `Node::from_gltf`,
starting from an empty mesh registry. -/
def Scene.build (doc : List GNode) : Scene :=
  let r := Node.from_gltf_list doc emptyScene
  { meshes := r.2.meshes, nodes := r.1, nextAlloc := r.2.nextAlloc }

mutual

/-- Every mesh reference held in a node's subtree, in depth-first order. -/
def Node.subtreeMeshes : Node → List Mesh
  | .mk children _ mesh _ _ _ _ _ => mesh.toList ++ Node.subtreeMeshes_list children

def Node.subtreeMeshes_list : List Node → List Mesh
  | [] => []
  | n :: ns => Node.subtreeMeshes n ++ Node.subtreeMeshes_list ns

end

mutual

/-- Every document mesh index referenced in a document node's subtree. -/
def GNode.refIndices : GNode → List Nat
  | .mk _ _ _ _ gmesh children _ =>
    (gmesh.map GMesh.index).toList ++ GNode.refIndices_list children

def GNode.refIndices_list : List GNode → List Nat
  | [] => []
  | g :: gs => GNode.refIndices g ++ GNode.refIndices_list gs

end

def modelUniform : String := "model"

/-- Calls `Node::draw` issues against the shader and the meshes, recorded
as events.  Drawing a mesh (which draws each of its primitive buffers) is
one event; the mesh internals live in src/render/mesh.rs, outside the
sources. -/
inductive DrawEvt where
  | setMat4 (name : String) (value : Matrix4)
  | drawMesh (mesh : Mesh)

/-- Embedding of the model-matrix computation at the head of `Node::draw`
(src/render/node.rs:66-77) on the fields it reads: when the stored matrix
is not the identity, multiply it onto the parent matrix; otherwise
multiply translation, non-uniform scale and rotation matrices on, in that
order. -/
def modelMatrixOf (parent matrix : Matrix4) (rotation : Quaternion)
    (scale translation : Vector3) : Matrix4 :=
  if !(Matrix4.is_identity matrix) then
    parent * matrix
  else
    parent * Matrix4.from_translation translation *
      Matrix4.from_nonuniform_scale scale.x scale.y scale.z *
      Matrix4.fromQuaternion rotation

/-- The model-matrix computation of `Node::draw` as a function of the node. -/
def Node.modelMatrix (n : Node) (parent : Matrix4) : Matrix4 :=
  modelMatrixOf parent n.matrix n.rotation n.scale n.translation

mutual

/-- Embedding of `Node::draw` (src/render/node.rs:65-90): compute the
model matrix; when the node owns a mesh, set the shader's "model" uniform
to it and draw the mesh; then recurse into every child with the computed
matrix as the new parent matrix. -/
def Node.draw : Node → Matrix4 → List DrawEvt
  | .mk children matrix mesh rotation scale translation _ _, parent =>
    let mm := modelMatrixOf parent matrix rotation scale translation
    (match mesh with
     | some m => [DrawEvt.setMat4 modelUniform mm, DrawEvt.drawMesh m]
     | none => []) ++ Node.draw_list children mm

def Node.draw_list : List Node → Matrix4 → List DrawEvt
  | [], _ => []
  | n :: ns, mm => Node.draw n mm ++ Node.draw_list ns mm

end

/-- The local-transform rule as the spec words it (section 4.2): a node
with a non-identity explicit matrix uses that matrix verbatim, ignoring
its TRS fields; a node with an identity explicit matrix uses
`translate(t) * scale(s) * rotation(r)` in that fixed order. -/
def localTransformOf (matrix : Matrix4) (rotation : Quaternion)
    (scale translation : Vector3) : Matrix4 :=
  if matrix ≠ 1 then matrix
  else
    Matrix4.from_translation translation *
      Matrix4.from_nonuniform_scale scale.x scale.y scale.z *
      Matrix4.fromQuaternion rotation

/-- The spec's local-transform rule as a function of the node. -/
def Node.localTransformSpec (n : Node) : Matrix4 :=
  localTransformOf n.matrix n.rotation n.scale n.translation

mutual

/-- The draw traversal as the spec words it (section 4.2): compose
`effective = parent * local`, emit exactly one "model" uniform set and
one mesh draw for a node owning a mesh and nothing for a node without
one, then visit the children depth-first in document order with
`effective` as the new parent matrix. -/
def Node.drawSpec : Node → Matrix4 → List DrawEvt
  | .mk children matrix mesh rotation scale translation _ _, parent =>
    let eff := parent * localTransformOf matrix rotation scale translation
    (match mesh with
     | some m => [DrawEvt.setMat4 modelUniform eff, DrawEvt.drawMesh m]
     | none => []) ++ Node.drawSpec_list children eff

def Node.drawSpec_list : List Node → Matrix4 → List DrawEvt
  | [], _ => []
  | n :: ns, eff => Node.drawSpec n eff ++ Node.drawSpec_list ns eff

end

/-- How many events of a trace set the "model" uniform. -/
def countSetModel : List DrawEvt → Nat
  | [] => 0
  | DrawEvt.setMat4 nm _ :: rest =>
    (if nm = modelUniform then 1 else 0) + countSetModel rest
  | _ :: rest => countSetModel rest

mutual

/-- How many nodes of a subtree own a mesh. -/
def Node.meshNodeCount : Node → Nat
  | .mk children _ mesh _ _ _ _ _ =>
    (match mesh with
     | some _ => 1
     | none => 0) + Node.meshNodeCount_list children

def Node.meshNodeCount_list : List Node → Nat
  | [] => 0
  | n :: ns => Node.meshNodeCount n + Node.meshNodeCount_list ns

end

/-! Concrete document nodes for the node-level claims. -/

def exDocM : Fin 16 → ℚ := ![0, 1, 2, 3, 4, 5, 6, 7, 8, 9, 10, 11, 12, 13, 14, 15]

def exIdMatrixG : Fin 16 → ℚ := ![1, 0, 0, 0, 0, 1, 0, 0, 0, 0, 1, 0, 0, 0, 0, 1]

def exDefaultRotG : Fin 4 → ℚ := ![0, 0, 0, 1]

def exVec111 : Vector3 := { x := 1, y := 1, z := 1 }

def exMNode : GNode :=
  GNode.mk exDocM exDefaultRotG exVec111 Vector3.zero none [] none

def exRotG : GNode :=
  GNode.mk exIdMatrixG ![1, 2, 3, 4] exVec111 Vector3.zero none [] none

def exMeshG : GMesh := { index := 0 }

def exChildG : GNode :=
  GNode.mk exIdMatrixG exDefaultRotG exVec111 (Vector3.mk 1 0 0) (some exMeshG) [] none

def exRootG : GNode :=
  GNode.mk exIdMatrixG exDefaultRotG exVec111 Vector3.zero (some exMeshG) [exChildG] none

def exDoc : List GNode := [exRootG]

/-! Concrete built nodes for the draw claims. -/

def exScaleMatrix : Matrix4 :=
  Matrix4.new 2 0 0 0 0 2 0 0 0 0 2 0 0 0 0 1

def exNodeA : Node :=
  Node.mk [] exScaleMatrix none (Quaternion.new 1 0 0 0) exVec111 Vector3.zero none 1

def exNodeB : Node :=
  Node.mk [] 1 none (Quaternion.new 1 0 0 0) (Vector3.mk 2 2 2) (Vector3.mk 3 0 0) none 1

/-! ## Theorems -/

theorem Matrix4.is_identity_iff (m : Matrix4) : Matrix4.is_identity m = true ↔ m = 1 := by
  simp [Matrix4.is_identity]

/-- Claim C6: for every base URL with at least one path segment and every
relative URI, `source_external_data` pops exactly one segment and pushes
the URI, so the target path is the base path without its last segment plus
the URI; in particular `https://host/dir/scene.gltf` with `buffer.bin`
resolves to `https://host/dir/buffer.bin`. -/
theorem c6_relative_uri_resolution (base : Url) (uri : String) (_h : base.path ≠ []) :
    (HttpSource.source_external_data base uri).path = base.path.dropLast ++ [uri]
    ∧ (HttpSource.source_external_data base uri).scheme = base.scheme
    ∧ (HttpSource.source_external_data base uri).host = base.host
    ∧ (HttpSource.source_external_data exBaseUrl exBufferBin).render = exResolvedStr := by
  refine ⟨rfl, rfl, rfl, ?_⟩
  decide

/-- Witness for C6 at the concrete base URL and relative URI of the claim. -/
theorem c6_relative_uri_resolution_witness :
    (HttpSource.source_external_data exBaseUrl exBufferBin).path = [exDir, exBufferBin]
    ∧ (HttpSource.source_external_data exBaseUrl exBufferBin).render = exResolvedStr := by
  have h := c6_relative_uri_resolution exBaseUrl exBufferBin (by decide)
  exact ⟨by rw [h.1]; decide, h.2.2.2⟩

/-- Claim C7: the code at src/http_source.rs:46-48 panics on a non-success
status (and on a transport error) instead of returning the typed
`Error::HttpError` result the spec requires: on a 404 response the
outcome is a panic carrying the status description, not a typed error. -/
theorem c7_fetch_error_is_panic :
    HttpSource.fetch_data exResp404 = FetchOutcome.panicked (requestFailedPre ++ exNotFound)
    ∧ FetchOutcome.isTypedError (HttpSource.fetch_data exResp404) = false
    ∧ FetchOutcome.isPanic (HttpSource.fetch_data exResp404) = true
    ∧ HttpSource.fetch_data exRespTransportErr = FetchOutcome.panicked unwrapErrMsg := by
  refine ⟨rfl, rfl, rfl, rfl⟩

/-- Helper: a texture list containing a texture of unrecognised kind makes
the binding loop panic, whatever the loop index and counters are. -/
theorem bindTexturesLoop_panics (ts : List Texture) (t : Texture) (ht : t ∈ ts)
    (hk : ¬ t.type_ ∈ knownTextureKinds) (i d s n h : Nat) :
    bindTexturesLoop ts i d s n h = Outcome.panicked unknownTextureMsg := by
  induction ts generalizing i d s n h with
  | nil => cases ht
  | cons t0 rest ih =>
    by_cases h0 : t0.type_ ∈ knownTextureKinds
    · have hne : t ≠ t0 := by
        intro he
        exact hk (he ▸ h0)
      have htr : t ∈ rest := by
        cases ht with
        | head => exact absurd rfl hne
        | tail _ htl => exact htl
      simp only [knownTextureKinds, List.mem_cons, List.mem_singleton,
        List.not_mem_nil, or_false] at h0
      rcases h0 with h0 | h0 | h0 | h0 <;>
        simp [bindTexturesLoop, h0, ih htr, kindDiffuse, kindSpecular, kindNormal, kindHeight]
    · have h1 : ¬ t0.type_ = kindDiffuse := by
        intro he
        exact h0 (by simp [knownTextureKinds, he])
      have h2 : ¬ t0.type_ = kindSpecular := by
        intro he
        exact h0 (by simp [knownTextureKinds, he])
      have h3 : ¬ t0.type_ = kindNormal := by
        intro he
        exact h0 (by simp [knownTextureKinds, he])
      have h4 : ¬ t0.type_ = kindHeight := by
        intro he
        exact h0 (by simp [knownTextureKinds, he])
      simp [bindTexturesLoop, h1, h2, h3, h4]

/-- Counterexample to claim C8 as stated: a primitive carrying a texture of
unrecognised kind is constructed successfully by `Primitive::new` — no
fatal error occurs at construction time. -/
theorem c8_counterexample :
    Primitive.new [Vertex.default] [0] [exWeirdTexture] = Outcome.ok exWeirdPrim
    ∧ (Primitive.new [Vertex.default] [0] [exWeirdTexture]).isOk = true := by
  exact ⟨rfl, rfl⟩

/-- Claim C8 (amended): construction never inspects texture kinds — with
nonempty vertex and index data `Primitive::new` succeeds whatever kind
strings the textures carry — and the fatal error for an unrecognised
texture kind occurs at `Primitive::draw` time instead. -/
theorem c8_unknown_kind_fatal_at_draw (vs : List Vertex) (is0 : List U32)
    (ts : List Texture) (t : Texture) (hv : vs ≠ []) (hi : is0 ≠ [])
    (ht : t ∈ ts) (hk : ¬ t.type_ ∈ knownTextureKinds) :
    Primitive.new vs is0 ts = Outcome.ok (Primitive.assemble vs is0 ts)
    ∧ Primitive.draw (Primitive.assemble vs is0 ts) = Outcome.panicked unknownTextureMsg := by
  constructor
  · simp [Primitive.new, Primitive.setup_primitive, Primitive.assemble,
      List.isEmpty_iff, hv, hi]
  · simp [Primitive.draw, Primitive.assemble, bindTexturesLoop_panics ts t ht hk]

/-- Witness for C8: on the concrete one-vertex primitive with the
unrecognised kind string, construction succeeds and drawing panics. -/
theorem c8_unknown_kind_fatal_at_draw_witness :
    Primitive.new [Vertex.default] [0] [exWeirdTexture] = Outcome.ok exWeirdPrim
    ∧ Primitive.draw exWeirdPrim = Outcome.panicked unknownTextureMsg := by
  have h := c8_unknown_kind_fatal_at_draw [Vertex.default] [0] [exWeirdTexture]
    exWeirdTexture (by decide) (by decide) (by decide) (by decide)
  exact h

/-- Claim C9: the widening match of `Primitive::from_gltf` takes 8-, 16- and
32-bit index streams to u32 streams preserving every value; the three
streams holding 0, 1, 2 widen to the same u32 sequence, and the whole of
`Primitive::from_gltf` gives the same primitive on each of them. -/
theorem c9_index_widening :
    (Indices.u8 ex012u8).widen = ex012u32
    ∧ (Indices.u16 ex012u16).widen = ex012u32
    ∧ (Indices.u32 ex012u32).widen = ex012u32
    ∧ (∀ idx : Indices, (Indices.widen idx).map Fin.val = Indices.vals idx)
    ∧ Primitive.from_gltf (GPrimitive.mk (some exPos3) (some exNor3) (some (Indices.u8 ex012u8)))
      = Primitive.from_gltf (GPrimitive.mk (some exPos3) (some exNor3) (some (Indices.u16 ex012u16)))
    ∧ Primitive.from_gltf (GPrimitive.mk (some exPos3) (some exNor3) (some (Indices.u16 ex012u16)))
      = Primitive.from_gltf (GPrimitive.mk (some exPos3) (some exNor3) (some (Indices.u32 ex012u32))) := by
  refine ⟨by decide, by decide, by decide, ?_, by decide, by decide⟩
  intro idx
  cases idx <;> simp [Indices.widen, Indices.vals, List.map_map, Function.comp]

/-- Counterexample to claim C10 as stated: with one position and zero
normals (mismatched lengths), `Primitive::from_gltf` does not succeed —
the vertex list is empty and `setup_primitive` panics indexing it. -/
theorem c10_counterexample :
    Primitive.from_gltf exMismatchG = Outcome.panicked outOfBoundsMsg
    ∧ (Primitive.from_gltf exMismatchG).isOk = false := by
  exact ⟨rfl, rfl⟩

/-- Claim C10 (amended): whenever both streams are nonempty (so the zip is
nonempty) and the index stream is nonempty, `Primitive::from_gltf`
succeeds with exactly `min p n` vertices, silently truncating the longer
stream; vertex `i` pairs position `i` with normal `i` and keeps zero
tex_coords, tangent and bitangent.  When `min p n = 0` construction
panics instead (see the counterexample). -/
theorem c10_zip_truncation (ps ns : List (ℚ × ℚ × ℚ)) (gidx : Indices)
    (hmin : 0 < min ps.length ns.length) (hidx : Indices.widen gidx ≠ []) :
    Primitive.from_gltf (GPrimitive.mk (some ps) (some ns) (some gidx))
      = Outcome.ok (Primitive.assemble (buildVertices ps ns) (Indices.widen gidx) [])
    ∧ (buildVertices ps ns).length = min ps.length ns.length
    ∧ (∀ i (h1 : i < ps.length) (h2 : i < ns.length),
        (buildVertices ps ns)[i]? =
          some { Vertex.default with
              position := Vector3.from3 ps[i], normal := Vector3.from3 ns[i] }) := by
  have hlen : (buildVertices ps ns).length = min ps.length ns.length := by
    simp [buildVertices]
  refine ⟨?_, hlen, ?_⟩
  · have hne : ¬ (buildVertices ps ns) = [] := by
      intro he
      rw [← List.length_eq_zero] at he
      omega
    simp [Primitive.from_gltf, Primitive.new, Primitive.setup_primitive,
      Primitive.assemble, List.isEmpty_iff, hne, hidx]
  · intro i h1 h2
    have hz : i < (ps.zip ns).length := by
      rw [List.length_zip]
      omega
    have hv : i < (buildVertices ps ns).length := by omega
    rw [List.getElem?_eq_getElem hv]
    simp [buildVertices, List.getElem_zip]

/-- Witness for C10 (amended) on concrete mismatched nonempty streams:
two positions and one normal give exactly one vertex. -/
theorem c10_zip_truncation_witness :
    Primitive.from_gltf (GPrimitive.mk (some exPs2) (some exNs1) (some (Indices.u16 ex012u16)))
      = Outcome.ok (Primitive.assemble (buildVertices exPs2 exNs1) (Indices.widen (Indices.u16 ex012u16)) [])
    ∧ (buildVertices exPs2 exNs1).length = 1 := by
  have h := c10_zip_truncation exPs2 exNs1 (Indices.u16 ex012u16) (by decide) (by decide)
  exact ⟨h.1, by rw [h.2.1]; decide⟩

/-- Claim C2: the matrix transcription of `Node::from_gltf` is NOT faithful.
The slot for the fourth column-major value (row 3, column 0) of the built
matrix holds the document's `m[2]` — systematically, for every document
matrix — so on the document matrix 0..15 the built node stores 2 where the
document carries 3. -/
theorem c2_matrix_transcription :
    (∀ m : Fin 16 → ℚ, nodeMatrixOf m 3 0 = m 2)
    ∧ ((Node.from_gltf exMNode emptyScene).1).matrix 3 0 = 2
    ∧ exDocM 3 = 3 := by
  refine ⟨?_, by decide, by decide⟩
  intro m
  rfl

/-- Claim C5: `Node::from_gltf` reorders the quaternion components from the
document's `[x, y, z, w]` to the engine's `[w, x, y, z]`: the built node's
rotation is `Quaternion::new(r[3], r[0], r[1], r[2])`, and on the document
components 1, 2, 3, 4 the engine quaternion is `(w, x, y, z) = (4, 1, 2, 3)`. -/
theorem c5_quaternion_reorder (g : GNode) (s : Scene) :
    ((Node.from_gltf g s).1).rotation =
      Quaternion.new (g.rotation 3) (g.rotation 0) (g.rotation 1) (g.rotation 2)
    ∧ ((Node.from_gltf exRotG emptyScene).1).rotation = Quaternion.mk 4 1 2 3 := by
  constructor
  · cases g with
    | mk gm gr gsc gt gme gch gn =>
      simp [Node.from_gltf, Node.rotation, GNode.rotation]
  · decide

/-- Helper: the model-matrix computation of `Node::draw` equals the parent
matrix times the spec's local-transform rule. -/
theorem modelMatrixOf_eq_spec (parent matrix : Matrix4) (r : Quaternion)
    (sc tr : Vector3) :
    modelMatrixOf parent matrix r sc tr = parent * localTransformOf matrix r sc tr := by
  by_cases h : matrix = 1
  · subst h
    have hb : Matrix4.is_identity (1 : Matrix4) = true :=
      (Matrix4.is_identity_iff 1).mpr rfl
    simp [modelMatrixOf, localTransformOf, hb, mul_assoc]
  · have hb : Matrix4.is_identity matrix = false := by
      rcases hbool : Matrix4.is_identity matrix with _ | _
      · rfl
      · exact absurd ((Matrix4.is_identity_iff matrix).mp hbool) h
    simp [modelMatrixOf, localTransformOf, hb, h]

/-- Claim C3: the local transform used by `Node::draw` follows the exact
rule of the spec: a non-identity stored matrix is used verbatim (TRS
ignored), an identity stored matrix makes the node use
translate * nonuniform_scale * rotation in that order; in both cases the
computed model matrix is the parent matrix times that local transform. -/
theorem c3_local_transform_rule (n : Node) (p : Matrix4) :
    Node.modelMatrix n p = p * Node.localTransformSpec n
    ∧ (n.matrix ≠ 1 → Node.modelMatrix n p = p * n.matrix)
    ∧ (n.matrix = 1 → Node.modelMatrix n p =
        p * (Matrix4.from_translation n.translation *
          Matrix4.from_nonuniform_scale n.scale.x n.scale.y n.scale.z *
          Matrix4.fromQuaternion n.rotation)) := by
  refine ⟨modelMatrixOf_eq_spec p n.matrix n.rotation n.scale n.translation, ?_, ?_⟩
  · intro h
    rw [Node.modelMatrix, modelMatrixOf_eq_spec, localTransformOf, if_pos h]
  · intro h
    rw [Node.modelMatrix, modelMatrixOf_eq_spec, localTransformOf, if_neg (by simp [h])]

/-- Witness for C3: a node with the non-identity scale-by-2 matrix uses
that matrix verbatim; a node with the identity matrix and a non-default
TRS composes translate, scale and rotation. -/
theorem c3_local_transform_rule_witness :
    Node.modelMatrix exNodeA 1 = 1 * exNodeA.matrix
    ∧ Node.modelMatrix exNodeB 1 =
        1 * (Matrix4.from_translation exNodeB.translation *
          Matrix4.from_nonuniform_scale exNodeB.scale.x exNodeB.scale.y exNodeB.scale.z *
          Matrix4.fromQuaternion exNodeB.rotation) :=
  ⟨(c3_local_transform_rule exNodeA 1).2.1 (by decide),
   (c3_local_transform_rule exNodeB 1).2.2 (by decide)⟩

mutual

/-- Helper: the draw traversal of the code coincides with the spec's
traversal rule, node by node. -/
theorem draw_eq_drawSpec (n : Node) (p : Matrix4) :
    Node.draw n p = Node.drawSpec n p := by
  cases n with
  | mk children matrix mesh rotation scale translation nm ft =>
    simp only [Node.draw, Node.drawSpec, modelMatrixOf_eq_spec,
      draw_list_eq_drawSpec_list]

/-- Helper: the child-list traversals coincide. -/
theorem draw_list_eq_drawSpec_list (ns : List Node) (p : Matrix4) :
    Node.draw_list ns p = Node.drawSpec_list ns p := by
  cases ns with
  | nil => simp [Node.draw_list, Node.drawSpec_list]
  | cons n rest =>
    simp only [Node.draw_list, Node.drawSpec_list, draw_eq_drawSpec,
      draw_list_eq_drawSpec_list]

end

/-- Helper: counting "model" uniform sets distributes over trace
concatenation. -/
theorem countSetModel_append (a b : List DrawEvt) :
    countSetModel (a ++ b) = countSetModel a + countSetModel b := by
  induction a with
  | nil => simp [countSetModel]
  | cons e rest ih =>
    cases e <;> simp [countSetModel, ih, Nat.add_assoc]

mutual

/-- Helper: a draw trace sets the "model" uniform exactly once per
mesh-owning node of the subtree, whatever the parent matrix is. -/
theorem draw_countSetModel (n : Node) (p : Matrix4) :
    countSetModel (Node.draw n p) = Node.meshNodeCount n := by
  cases n with
  | mk children matrix mesh rotation scale translation nm ft =>
    cases mesh with
    | none =>
      simp [Node.draw, Node.meshNodeCount, countSetModel,
        draw_list_countSetModel children]
    | some m =>
      simp [Node.draw, Node.meshNodeCount, countSetModel,
        draw_list_countSetModel children]

/-- Helper: the list version of `draw_countSetModel`. -/
theorem draw_list_countSetModel (ns : List Node) (p : Matrix4) :
    countSetModel (Node.draw_list ns p) = Node.meshNodeCount_list ns := by
  cases ns with
  | nil => simp [Node.draw_list, Node.meshNodeCount_list, countSetModel]
  | cons n rest =>
    simp [Node.draw_list, Node.meshNodeCount_list, countSetModel_append,
      draw_countSetModel n, draw_list_countSetModel rest]

end

/-- Claim C4: `Node::draw` realises exactly the spec's traversal: the trace
it emits equals the spec traversal's trace — effective matrix is
parent * local, one "model" uniform set plus one mesh draw for each
mesh-owning node and nothing for meshless nodes, children visited
depth-first in document order with the effective matrix as new parent —
and the number of "model" uniform sets equals the number of mesh-owning
nodes in the subtree. -/
theorem c4_draw_traversal (n : Node) (p : Matrix4) :
    Node.draw n p = Node.drawSpec n p
    ∧ countSetModel (Node.draw n p) = Node.meshNodeCount n :=
  ⟨draw_eq_drawSpec n p, draw_countSetModel n p⟩

/-- Helper: mesh resolution only ever appends to the registry. -/
theorem resolveMesh_extend (gm : Option GMesh) (s : Scene) :
    ∃ ex, (resolveMesh gm s).2.meshes = s.meshes ++ ex := by
  cases gm with
  | none => exact ⟨[], by simp [resolveMesh]⟩
  | some g =>
    rcases hf : s.meshes.find? (fun m => m.index == g.index) with _ | m
    · exact ⟨[Mesh.from_gltf g s.nextAlloc], by simp [resolveMesh, hf]⟩
    · exact ⟨[], by simp [resolveMesh, hf]⟩

/-- Helper: mesh resolution preserves distinctness of the registry's
document mesh indices — a fresh mesh is pushed only after the lookup for
its index missed. -/
theorem resolveMesh_nodup (gm : Option GMesh) (s : Scene)
    (hs : (s.meshes.map Mesh.index).Nodup) :
    ((resolveMesh gm s).2.meshes.map Mesh.index).Nodup := by
  cases gm with
  | none => simpa [resolveMesh] using hs
  | some g =>
    rcases hf : s.meshes.find? (fun m => m.index == g.index) with _ | m
    · have hnotmem : ¬ g.index ∈ s.meshes.map Mesh.index := by
        intro hmem
        rcases List.mem_map.mp hmem with ⟨m0, hm0, hidx⟩
        have := List.find?_eq_none.mp hf m0 hm0
        simp [hidx] at this
      simp [resolveMesh, hf, Mesh.from_gltf, List.nodup_append, hs, hnotmem]
    · simpa [resolveMesh, hf] using hs

/-- Helper: the mesh handed to the node by resolution is in the updated
registry. -/
theorem resolveMesh_mem (gm : Option GMesh) (s : Scene) (m : Mesh)
    (hm : (resolveMesh gm s).1 = some m) :
    m ∈ (resolveMesh gm s).2.meshes := by
  cases gm with
  | none => simp [resolveMesh] at hm
  | some g =>
    rcases hf : s.meshes.find? (fun m => m.index == g.index) with _ | m0
    · simp [resolveMesh, hf] at hm ⊢
      exact Or.inr hm.symm
    · simp [resolveMesh, hf] at hm ⊢
      have h0 : m0 ∈ s.meshes := List.mem_of_find?_eq_some hf
      rw [← hm]
      exact h0

/-- Helper: after resolution the registry's index set is the old index set
plus the index of the resolved document mesh (if any). -/
theorem resolveMesh_cover (gm : Option GMesh) (s : Scene) (i : Nat) :
    i ∈ (resolveMesh gm s).2.meshes.map Mesh.index ↔
      (i ∈ s.meshes.map Mesh.index ∨ i ∈ (gm.map GMesh.index).toList) := by
  cases gm with
  | none => simp [resolveMesh]
  | some g =>
    rcases hf : s.meshes.find? (fun m => m.index == g.index) with _ | m0
    · simp [resolveMesh, hf, Mesh.from_gltf]
    · have hidx : m0.index = g.index := by
        have := List.find?_some hf
        simpa using this
      have hmem : g.index ∈ s.meshes.map Mesh.index :=
        List.mem_map.mpr ⟨m0, List.mem_of_find?_eq_some hf, hidx⟩
      simp only [resolveMesh, hf]
      constructor
      · intro h
        exact Or.inl h
      · rintro (h | h)
        · exact h
        · have h2 : i = g.index := by simpa using h
          exact h2 ▸ hmem

mutual

/-- Helper: the registry invariants of `Node::from_gltf`: the registry only
grows; distinctness of its document indices is preserved; every mesh
reference handed to a node of the built subtree is in the resulting
registry; and the resulting registry's index set is the incoming index set
plus the subtree's referenced indices. -/
theorem from_gltf_registry (g : GNode) (s : Scene) :
    (∃ ex, (Node.from_gltf g s).2.meshes = s.meshes ++ ex)
    ∧ ((s.meshes.map Mesh.index).Nodup →
        (((Node.from_gltf g s).2.meshes.map Mesh.index).Nodup))
    ∧ (∀ m ∈ Node.subtreeMeshes (Node.from_gltf g s).1,
        m ∈ (Node.from_gltf g s).2.meshes)
    ∧ (∀ i, i ∈ (Node.from_gltf g s).2.meshes.map Mesh.index ↔
        (i ∈ s.meshes.map Mesh.index ∨ i ∈ GNode.refIndices g)) := by
  cases g with
  | mk gmatrix grot gscale gtrans gmesh gchildren gname =>
    have hR := resolveMesh_extend gmesh s
    have hL := from_gltf_list_registry gchildren (resolveMesh gmesh s).2
    refine ⟨?_, ?_, ?_, ?_⟩
    · obtain ⟨ex1, he1⟩ := hR
      obtain ⟨ex2, he2⟩ := hL.1
      exact ⟨ex1 ++ ex2, by
        simp only [Node.from_gltf]
        rw [he2, he1, List.append_assoc]⟩
    · intro hs
      simp only [Node.from_gltf]
      exact hL.2.1 (resolveMesh_nodup gmesh s hs)
    · intro m hm
      simp only [Node.from_gltf, Node.subtreeMeshes] at hm
      simp only [Node.from_gltf]
      rcases List.mem_append.mp hm with hm | hm
      · obtain ⟨ex2, he2⟩ := hL.1
        have hsome : (resolveMesh gmesh s).1 = some m := by
          cases hopt : (resolveMesh gmesh s).1 with
          | none => simp [hopt] at hm
          | some m0 =>
            simp [hopt] at hm
            subst hm
            rfl
        have := resolveMesh_mem gmesh s m hsome
        rw [he2]
        exact List.mem_append.mpr (Or.inl this)
      · exact hL.2.2.1 m hm
    · intro i
      simp only [Node.from_gltf, GNode.refIndices]
      rw [hL.2.2.2 i, resolveMesh_cover gmesh s i]
      simp [List.mem_append, or_assoc]

/-- Helper: the list version of `from_gltf_registry`, threading the scene
through the sibling recursion. -/
theorem from_gltf_list_registry (gs : List GNode) (s : Scene) :
    (∃ ex, (Node.from_gltf_list gs s).2.meshes = s.meshes ++ ex)
    ∧ ((s.meshes.map Mesh.index).Nodup →
        (((Node.from_gltf_list gs s).2.meshes.map Mesh.index).Nodup))
    ∧ (∀ m ∈ Node.subtreeMeshes_list (Node.from_gltf_list gs s).1,
        m ∈ (Node.from_gltf_list gs s).2.meshes)
    ∧ (∀ i, i ∈ (Node.from_gltf_list gs s).2.meshes.map Mesh.index ↔
        (i ∈ s.meshes.map Mesh.index ∨ i ∈ GNode.refIndices_list gs)) := by
  cases gs with
  | nil =>
    refine ⟨⟨[], by simp [Node.from_gltf_list]⟩, ?_, ?_, ?_⟩
    · intro hs
      simpa [Node.from_gltf_list] using hs
    · intro m hm
      simp [Node.from_gltf_list, Node.subtreeMeshes_list] at hm
    · intro i
      simp [Node.from_gltf_list, GNode.refIndices_list]
  | cons g rest =>
    have hH := from_gltf_registry g s
    have hT := from_gltf_list_registry rest (Node.from_gltf g s).2
    refine ⟨?_, ?_, ?_, ?_⟩
    · obtain ⟨ex1, he1⟩ := hH.1
      obtain ⟨ex2, he2⟩ := hT.1
      exact ⟨ex1 ++ ex2, by
        simp only [Node.from_gltf_list]
        rw [he2, he1, List.append_assoc]⟩
    · intro hs
      simp only [Node.from_gltf_list]
      exact hT.2.1 (hH.2.1 hs)
    · intro m hm
      simp only [Node.from_gltf_list, Node.subtreeMeshes_list] at hm
      simp only [Node.from_gltf_list]
      rcases List.mem_append.mp hm with hm | hm
      · obtain ⟨ex2, he2⟩ := hT.1
        have := hH.2.2.1 m hm
        rw [he2]
        exact List.mem_append.mpr (Or.inl this)
      · exact hT.2.2.1 m hm
    · intro i
      simp only [Node.from_gltf_list, GNode.refIndices_list]
      rw [hT.2.2.2 i, hH.2.2.2 i]
      simp [List.mem_append, or_assoc]

end

/-- Claim C1: after a full `Scene::build` the registry holds exactly one
entry per distinct document mesh index referenced by the document, and any
two mesh references held by built nodes that share a document mesh index
are the same shared Mesh instance (same `Rc` allocation), never
independent copies. -/
theorem c1_mesh_dedup (doc : List GNode) :
    (((Scene.build doc).meshes.map Mesh.index).Nodup)
    ∧ (∀ i, i ∈ (Scene.build doc).meshes.map Mesh.index ↔ i ∈ GNode.refIndices_list doc)
    ∧ (∀ m1 ∈ Node.subtreeMeshes_list (Scene.build doc).nodes,
       ∀ m2 ∈ Node.subtreeMeshes_list (Scene.build doc).nodes,
        m1.index = m2.index → m1 = m2) := by
  have h := from_gltf_list_registry doc emptyScene
  have hnodup : (((Node.from_gltf_list doc emptyScene).2.meshes.map Mesh.index).Nodup) :=
    h.2.1 (by simp [emptyScene])
  refine ⟨?_, ?_, ?_⟩
  · simpa [Scene.build] using hnodup
  · intro i
    have := h.2.2.2 i
    simpa [Scene.build, emptyScene] using this
  · intro m1 hm1 m2 hm2 heq
    have hmem1 : m1 ∈ (Node.from_gltf_list doc emptyScene).2.meshes := by
      apply h.2.2.1
      simpa [Scene.build] using hm1
    have hmem2 : m2 ∈ (Node.from_gltf_list doc emptyScene).2.meshes := by
      apply h.2.2.1
      simpa [Scene.build] using hm2
    exact List.inj_on_of_nodup_map hnodup hmem1 hmem2 heq

/-- Witness for C1 on the concrete two-node document in which the root and
its child both reference document mesh index 0: both built nodes hold the
same Mesh instance and the registry holds a single entry. -/
theorem c1_mesh_dedup_witness :
    Node.subtreeMeshes_list (Scene.build exDoc).nodes = [Mesh.mk 0 0, Mesh.mk 0 0]
    ∧ (Scene.build exDoc).meshes.map Mesh.index = [0]
    ∧ Mesh.mk 0 0 = Mesh.mk 0 0 := by
  refine ⟨by decide, by decide, ?_⟩
  exact (c1_mesh_dedup exDoc).2.2 (Mesh.mk 0 0) (by decide) (Mesh.mk 0 0) (by decide) rfl

end GltfViewer
